import Mathlib

/-
Verification development for the AR pong game (pong-game.js).

The game core is embedded shallowly over the reals: THREE.Vector3 becomes
a record of three reals, per-frame mutation becomes explicit state passing
on a GameState record, and every Math.random() draw becomes an explicit
parameter (collected in a Rand record).  Deferred setTimeout transitions
(the first-serve delay and the 3 second round-end reset) are modeled as
pending flags plus an explicit function for the deferred callback body.
Sound playback, DOM score display and debug logging mutate no game state
and are omitted.  Scene-graph callback registration (ARScene) is modeled
separately with function identities as numeric tokens, because the JS code
matches callbacks by object identity.
-/

noncomputable section

namespace Pong

/-- A 3D vector of real coordinates, standing in for THREE.Vector3. -/
@[ext]
structure Vec3 where
  x : ℝ
  y : ℝ
  z : ℝ

instance : Inhabited Vec3 := ⟨⟨0, 0, 0⟩⟩

/-- An RGB color, standing in for THREE.Color (channels in [0,1]). -/
@[ext]
structure Color where
  r : ℝ
  g : ℝ
  b : ℝ

/-- Componentwise scaling, standing in for Vector3.multiplyScalar. -/
def smul (c : ℝ) (v : Vec3) : Vec3 := ⟨c * v.x, c * v.y, c * v.z⟩

/-- Euclidean magnitude of a velocity vector, as computed in
checkPaddleCollisions (Math.sqrt of the sum of squared components). -/
def speedOf (v : Vec3) : ℝ := Real.sqrt (v.x ^ 2 + v.y ^ 2 + v.z ^ 2)

/-- JavaScript Math.sign restricted to the reals. -/
def jsSign (x : ℝ) : ℝ := if 0 < x then 1 else if x < 0 then -1 else 0

/- Session constants from the PongGame constructor (pong-game.js lines 29-76).
They are fixed for the life of a session and never mutated. -/

def tableWidth : ℝ := 0.8
def tableDepth : ℝ := 1.2
def tableHeight : ℝ := 0.01
def playAreaHeight : ℝ := 0.6
def paddleWidth : ℝ := 0.15
def paddleHeight : ℝ := 0.15
def paddleDepth : ℝ := 0.01
def ballRadius : ℝ := 0.02
def gravity : ℝ := -0.3
def groundDamping : ℝ := 0.8
def winningScore : ℕ := 5
def paddleVerticalRange : ℝ := playAreaHeight - paddleHeight
def paddleDepthRange : ℝ := tableDepth * 0.4
def aiPaddleMovementSpeed : ℝ := 0.5

/-- One pooled particle system (createParticleSystem, lines 264-303):
a THREE.Points object carrying userData with an active flag, elapsed and
maximum lifetime, and per-particle position/color/velocity/size buffers. -/
@[ext]
structure ParticleSystem where
  active : Bool
  visible : Bool
  lifetime : ℝ
  maxLifetime : ℝ
  position : Vec3
  positions : List Vec3
  colors : List Color
  velocities : List Vec3
  sizes : List ℝ

/-- Placeholder system used as the default for list indexing. -/
def dummyPS : ParticleSystem :=
  ⟨false, false, 0, 1, ⟨0, 0, 0⟩, [], [], [], []⟩

instance : Inhabited ParticleSystem := ⟨dummyPS⟩

/-- A fresh particle system (createParticleSystem with count particles):
buffers zero-initialised except colors and sizes, which are random; the
userData starts inactive with maxLifetime 1.0.  The rnd argument supplies
the Math.random() draws (three color channels and one size per particle). -/
def createParticleSystem (rnd : ℕ → ℝ × ℝ × ℝ × ℝ) (count : ℕ) : ParticleSystem where
  active := false
  visible := true
  lifetime := 0
  maxLifetime := 1.0
  position := ⟨0, 0, 0⟩
  positions := List.replicate count ⟨0, 0, 0⟩
  colors := (List.range count).map fun i => ⟨(rnd i).1, (rnd i).2.1, (rnd i).2.2.1⟩
  velocities := List.replicate count ⟨0, 0, 0⟩
  sizes := (List.range count).map fun i => 0.01 + (rnd i).2.2.2 * 0.02

/-- createParticlePool (lines 254-262): ten systems, each made invisible. -/
def createParticlePool (rnd : ℕ → ℕ → ℝ × ℝ × ℝ × ℝ) : List ParticleSystem :=
  (List.range 10).map fun i => { createParticleSystem (rnd i) 30 with visible := false }

/-- A floating score indicator sprite (createScoreIndicator, lines 964-1002). -/
@[ext]
structure ScoreIndicator where
  pos : Vec3
  scaleX : ℝ
  scaleY : ℝ
  opacity : ℝ
  lifetime : ℝ
  maxLifetime : ℝ
  initialY : ℝ
  isPlayer : Bool

/-- The mutable game state of one PongGame instance.  particles holds the
indices into particlePool of the systems currently in this.particles (the
JS array stores references into the pool; indices model that aliasing). -/
@[ext]
structure GameState where
  isPlaying : Bool
  playerScore : ℕ
  aiScore : ℕ
  gameLevel : ℕ
  ballSpeed : ℝ
  ballPos : Vec3
  ballVelocity : Vec3
  lastPosition : Vec3
  ballRotX : ℝ
  ballRotZ : ℝ
  playerPaddle : Vec3
  aiPaddle : Vec3
  particlePool : List ParticleSystem
  particles : List ℕ
  scoreIndicators : List ScoreIndicator
  trail : List Vec3
  trailUpdateCounter : ℕ
  pendingGameEnd : Bool
  pendingLaunch : Bool

/-- The Math.random() draws consumed by one update tick, one field per call
site (launch angles, per-call particle emission draws, AI jitter draws). -/
structure Rand where
  bounceEmit : ℕ → ℝ × ℝ × ℝ
  wallEmit : ℕ → ℝ × ℝ × ℝ
  paddleEmitP : ℕ → ℝ × ℝ × ℝ
  paddleEmitA : ℕ → ℝ × ℝ × ℝ
  scoreEmitP : ℕ → ℝ × ℝ × ℝ
  scoreEmitA : ℕ → ℝ × ℝ × ℝ
  launchU1P : ℝ
  launchU2P : ℝ
  launchU1A : ℝ
  launchU2A : ℝ
  launchEmitP : ℕ → ℝ × ℝ × ℝ
  launchEmitA : ℕ → ℝ × ℝ × ℝ
  aiJitterU : ℝ
  aiJx : ℝ
  aiJy : ℝ
  aiJz : ℝ

/-- Scan of the particle pool for the first inactive system
(emitParticles lines 307-313: iterate in order, take the first with
userData.active false, none if the pool is exhausted). -/
def findInactiveIdx : List ParticleSystem → Option ℕ
  | [] => none
  | ps :: rest => if ps.active then (findInactiveIdx rest).map (· + 1) else some 0

/-- One sampled particle velocity (lines 337-344): random spherical angles
theta in [0, 2pi), phi in [0, pi), magnitude up to speed. -/
def sampleVel (t : ℝ × ℝ × ℝ) (speed : ℝ) : Vec3 :=
  let theta := t.1 * (Real.pi * 2)
  let phi := t.2.1 * Real.pi
  let rr := t.2.2 * speed
  ⟨rr * Real.sin phi * Real.cos theta, rr * Real.sin phi * Real.sin theta, rr * Real.cos phi⟩

/-- emitParticles (lines 305-356): find an inactive pooled system; if none,
return with the state untouched.  Otherwise reposition the system, write
color/position/velocity for the first count particles (a JS typed array
ignores writes past its end, hence the index guard), activate it with
lifetime 0 and push it onto the active list. -/
def emitParticles (pos : Vec3) (color : Color) (count : ℕ) (speed : ℝ)
    (rnd : ℕ → ℝ × ℝ × ℝ) (s : GameState) : GameState :=
  match findInactiveIdx s.particlePool with
  | none => s
  | some i =>
    let ps := s.particlePool.getD i dummyPS
    let ps := { ps with
      position := pos
      visible := true
      colors := ps.colors.mapIdx fun j c => if j < count then color else c
      positions := ps.positions.mapIdx fun j p => if j < count then ⟨0, 0, 0⟩ else p
      velocities := ps.velocities.mapIdx fun j v => if j < count then sampleVel (rnd j) speed else v
      active := true
      lifetime := 0 }
    { s with particlePool := s.particlePool.set i ps, particles := s.particles ++ [i] }

/-- Per-particle advance of one live system (lines 380-394): positions move
by velocity, velocity.y loses 0.01 per second, colors fade by the factor
1 - lifePercent each tick. -/
def advanceParticleArrays (dt lifePercent : ℝ) (ps : ParticleSystem) : ParticleSystem :=
  let alpha := 1 - lifePercent
  { ps with
    positions := List.zipWith
      (fun p v => Vec3.mk (p.x + v.x * dt) (p.y + v.y * dt) (p.z + v.z * dt))
      ps.positions ps.velocities
    velocities := ps.velocities.map fun v => { v with y := v.y - 0.01 * dt }
    colors := ps.colors.map fun c => ⟨c.r * alpha, c.g * alpha, c.b * alpha⟩ }

/-- updateParticles loop body (lines 358-399) over the active index list,
threading the pool: each system ages by dt; an expired system is
deactivated, hidden and dropped from the active list; a live one advances. -/
def updateParticlesAux (dt : ℝ) : List ℕ → List ParticleSystem → List ℕ × List ParticleSystem
  | [], pool => ([], pool)
  | i :: rest, pool =>
    let ps := pool.getD i dummyPS
    let ps := { ps with lifetime := ps.lifetime + dt }
    if ps.maxLifetime ≤ ps.lifetime then
      updateParticlesAux dt rest (pool.set i { ps with active := false, visible := false })
    else
      let ps := advanceParticleArrays dt (ps.lifetime / ps.maxLifetime) ps
      let r := updateParticlesAux dt rest (pool.set i ps)
      (i :: r.1, r.2)

/-- updateParticles (lines 358-399). -/
def updateParticles (dt : ℝ) (s : GameState) : GameState :=
  let r := updateParticlesAux dt s.particles s.particlePool
  { s with particles := r.1, particlePool := r.2 }

/-- updateTrail (lines 401-426): every second frame shift the trail buffer
back by one and write the local origin at the head. -/
def updateTrail (s : GameState) : GameState :=
  let c := s.trailUpdateCounter + 1
  if c % 2 ≠ 0 then { s with trailUpdateCounter := c }
  else
    { s with
      trailUpdateCounter := c
      trail := match s.trail with
        | [] => []
        | _ :: _ => Vec3.mk 0 0 0 :: s.trail.dropLast }

/-- createScoreIndicator (lines 964-1002): a sprite floated 0.2 above the
given position, scale (0.2, 0.1), full opacity, lifetime budget 1.5 s. -/
def createScoreIndicator (position : Vec3) (isPlayer : Bool) (s : GameState) : GameState :=
  let p : Vec3 := { position with y := position.y + 0.2 }
  let ind : ScoreIndicator :=
    { pos := p, scaleX := 0.2, scaleY := 0.1, opacity := 1.0
      lifetime := 0, maxLifetime := 1.5, initialY := p.y, isPlayer := isPlayer }
  { s with scoreIndicators := s.scoreIndicators ++ [ind] }

/-- updateScoreIndicators loop body (lines 1004-1032): each indicator ages;
expired ones are removed from the scene and the list; live ones float up,
fade with a quadratic curve and shrink. -/
def updateScoreIndicatorsAux (dt : ℝ) : List ScoreIndicator → List ScoreIndicator
  | [] => []
  | ind :: rest =>
    let ind := { ind with lifetime := ind.lifetime + dt }
    if ind.maxLifetime ≤ ind.lifetime then updateScoreIndicatorsAux dt rest
    else
      let progress : ℝ := ind.lifetime / ind.maxLifetime
      let scale : ℝ := 1 - progress * 0.3
      { ind with
        pos := { ind.pos with y := ind.initialY + progress * 0.3 }
        opacity := 1 - progress ^ 2
        scaleX := 0.2 * scale
        scaleY := 0.1 * scale } :: updateScoreIndicatorsAux dt rest

/-- updateScoreIndicators (lines 1004-1032). -/
def updateScoreIndicators (dt : ℝ) (s : GameState) : GameState :=
  { s with scoreIndicators := updateScoreIndicatorsAux dt s.scoreIndicators }

/-- Horizontal launch angle (line 660): Math.random() times two pi. -/
def launchAngleH (u1 : ℝ) : ℝ := u1 * (Real.pi * 2)

/-- Vertical launch angle (line 661): (Math.random() - 0.5) times pi times 0.3,
a cone of at most 27 degrees from horizontal. -/
def launchAngleV (u2 : ℝ) : ℝ := (u2 - 0.5) * (Real.pi * 0.3)

/-- The velocity assigned by launchBall (lines 658-670): a random direction
at magnitude ballSpeed, then, if the z component is smaller than 0.3 in
magnitude, that component alone is overwritten with sign-matched 0.3
(zero maps to -0.3) with no renormalization of the whole vector. -/
def launchVelocity (u1 u2 bs : ℝ) : Vec3 :=
  let vx := Real.cos (launchAngleH u1) * Real.cos (launchAngleV u2) * bs
  let vy := Real.sin (launchAngleV u2) * bs
  let vz := Real.sin (launchAngleH u1) * Real.cos (launchAngleV u2) * bs
  if |vz| < 0.3 then ⟨vx, vy, if 0 < vz then 0.3 else -0.3⟩ else ⟨vx, vy, vz⟩

/-- launchBall (lines 658-684): assign the randomized launch velocity, save
the current ball position as lastPosition, emit a cyan launch burst. -/
def launchBall (u1 u2 : ℝ) (rnd : ℕ → ℝ × ℝ × ℝ) (s : GameState) : GameState :=
  let s := { s with ballVelocity := launchVelocity u1 u2 s.ballSpeed }
  let s := { s with lastPosition := s.ballPos }
  emitParticles s.ballPos ⟨0, 1, 1⟩ 30 0.15 rnd s

/-- resetBall (lines 642-656): recenter the ball at (0, tableHeight + ballRadius, 0).
On the first serve of a session the launch is deferred one second via
setTimeout (modeled by the pendingLaunch flag); otherwise launch at once. -/
def resetBall (firstServe : Bool) (u1 u2 : ℝ) (rnd : ℕ → ℝ × ℝ × ℝ) (s : GameState) : GameState :=
  let s := { s with ballPos := ⟨0, tableHeight + ballRadius, 0⟩ }
  if firstServe then { s with pendingLaunch := true } else launchBall u1 u2 rnd s

/-- checkGameEnd (lines 1090-1128): when either score has reached
winningScore, play the win sound and schedule (setTimeout, 3000 ms) the
round reset.  The celebration bursts and the reset itself are all deferred;
the synchronous part only raises the pending flag here. -/
def checkGameEnd (s : GameState) : GameState :=
  if winningScore ≤ s.playerScore ∨ winningScore ≤ s.aiScore then
    { s with pendingGameEnd := true }
  else s

/-- Body of the 3 second setTimeout scheduled by checkGameEnd
(lines 1115-1126): zero both scores, recenter the ball with the
first-serve delay, bump gameLevel, and recompute ballSpeed as
min(0.5 + gameLevel * 0.05, 0.8) at the incremented level. -/
def gameEndTimeout (s : GameState) : GameState :=
  let s := { s with playerScore := 0, aiScore := 0, pendingGameEnd := false }
  let s := resetBall true 0 0 (fun _ => (0, 0, 0)) s
  let s := { s with gameLevel := s.gameLevel + 1 }
  { s with ballSpeed := min (0.5 + (s.gameLevel : ℝ) * 0.05) 0.8 }

/-- Body of the checkScoring branch taken when the ball passed the player
paddle end (lines 1036-1060): bump the AI score, spawn a score indicator
at the crossing position, emit a burst, reset and relaunch the ball with
no delay, then check for game end. -/
def aiScoresBranch (r : Rand) (s : GameState) : GameState :=
  let t := { s with aiScore := s.aiScore + 1 }
  let t := createScoreIndicator t.ballPos false t
  let t := emitParticles t.ballPos ⟨1, 51 / 255, 102 / 255⟩ 40 0.25 r.scoreEmitA t
  let t := resetBall false r.launchU1A r.launchU2A r.launchEmitA t
  checkGameEnd t

/-- Body of the branch taken when the ball passed the AI paddle end
(lines 1063-1087): the symmetric block for the player. -/
def playerScoresBranch (r : Rand) (s : GameState) : GameState :=
  let t := { s with playerScore := s.playerScore + 1 }
  let t := createScoreIndicator t.ballPos true t
  let t := emitParticles t.ballPos ⟨0, 1, 136 / 255⟩ 40 0.25 r.scoreEmitP t
  let t := resetBall false r.launchU1P r.launchU2P r.launchEmitP t
  checkGameEnd t

/-- checkScoring (lines 1034-1088), assembled from the two branches. -/
def checkScoring (r : Rand) (s : GameState) : GameState :=
  let s1 := if tableDepth / 2 + ballRadius < s.ballPos.z then aiScoresBranch r s else s
  if s1.ballPos.z < -(tableDepth / 2) - ballRadius then playerScoresBranch r s1 else s1

/-- Player block of checkPaddleCollisions (lines 754-796): the ball must be
moving toward positive z, its leading edge must have crossed the front
face plane of the player paddle since the previous tick, and its center
must lie inside the paddle rectangle.  The response flips and amplifies
the z velocity by 1.05, deflects x and y by the normalized hit offset
times 0.5, rescales the whole vector to magnitude ballSpeed, snaps the
ball in front of the paddle face, and emits a green burst. -/
def playerPaddleCollision (rnd : ℕ → ℝ × ℝ × ℝ) (s : GameState) : GameState :=
  if 0 < s.ballVelocity.z ∧
     s.playerPaddle.z - paddleDepth / 2 < s.ballPos.z + ballRadius ∧
     s.lastPosition.z + ballRadius ≤ s.playerPaddle.z - paddleDepth / 2 then
    if s.playerPaddle.x - paddleWidth / 2 ≤ s.ballPos.x ∧
       s.ballPos.x ≤ s.playerPaddle.x + paddleWidth / 2 ∧
       s.playerPaddle.y - paddleHeight / 2 ≤ s.ballPos.y ∧
       s.ballPos.y ≤ s.playerPaddle.y + paddleHeight / 2 then
      let hitX := (s.ballPos.x - s.playerPaddle.x) / (paddleWidth / 2)
      let hitY := (s.ballPos.y - s.playerPaddle.y) / (paddleHeight / 2)
      let w : Vec3 := ⟨s.ballVelocity.x + hitX * 0.5,
                       s.ballVelocity.y + hitY * 0.5,
                       s.ballVelocity.z * (-1.05)⟩
      let t := { s with
        ballVelocity := smul (s.ballSpeed / speedOf w) w
        ballPos := { s.ballPos with z := s.playerPaddle.z - paddleDepth / 2 - ballRadius } }
      emitParticles t.ballPos ⟨0, 1, 136 / 255⟩ 30 0.2 rnd t
    else s
  else s

/-- AI block of checkPaddleCollisions (lines 798-835), mirrored to the
negative z end of the table. -/
def aiPaddleCollision (rnd : ℕ → ℝ × ℝ × ℝ) (s : GameState) : GameState :=
  if s.ballVelocity.z < 0 ∧
     s.ballPos.z - ballRadius < s.aiPaddle.z + paddleDepth / 2 ∧
     s.aiPaddle.z + paddleDepth / 2 ≤ s.lastPosition.z - ballRadius then
    if s.aiPaddle.x - paddleWidth / 2 ≤ s.ballPos.x ∧
       s.ballPos.x ≤ s.aiPaddle.x + paddleWidth / 2 ∧
       s.aiPaddle.y - paddleHeight / 2 ≤ s.ballPos.y ∧
       s.ballPos.y ≤ s.aiPaddle.y + paddleHeight / 2 then
      let hitX := (s.ballPos.x - s.aiPaddle.x) / (paddleWidth / 2)
      let hitY := (s.ballPos.y - s.aiPaddle.y) / (paddleHeight / 2)
      let w : Vec3 := ⟨s.ballVelocity.x + hitX * 0.5,
                       s.ballVelocity.y + hitY * 0.5,
                       s.ballVelocity.z * (-1.05)⟩
      let t := { s with
        ballVelocity := smul (s.ballSpeed / speedOf w) w
        ballPos := { s.ballPos with z := s.aiPaddle.z + paddleDepth / 2 + ballRadius } }
      emitParticles t.ballPos ⟨1, 51 / 255, 102 / 255⟩ 30 0.2 rnd t
    else s
  else s

/-- checkPaddleCollisions (lines 754-836): the player block runs first, the
AI block then sees its result. -/
def checkPaddleCollisions (r : Rand) (s : GameState) : GameState :=
  aiPaddleCollision r.paddleEmitA (playerPaddleCollision r.paddleEmitP s)

/-- Semi-implicit Euler step of update (lines 689-698): save lastPosition,
add gravity to velocity.y, then move the position by the new velocity. -/
def integrateBall (dt : ℝ) (s : GameState) : GameState :=
  let s := { s with lastPosition := s.ballPos }
  let s := { s with ballVelocity := { s.ballVelocity with y := s.ballVelocity.y + gravity * dt } }
  { s with ballPos := ⟨s.ballPos.x + s.ballVelocity.x * dt,
                       s.ballPos.y + s.ballVelocity.y * dt,
                       s.ballPos.z + s.ballVelocity.z * dt⟩ }

/-- Floor and ceiling collision block of update (lines 700-711): clamp y to
the violated bound, reflect velocity.y with the groundDamping loss, emit a
blue burst.  The two tests are an if / else-if pair. -/
def bounceCollisions (rnd : ℕ → ℝ × ℝ × ℝ) (s : GameState) : GameState :=
  if s.ballPos.y < tableHeight + ballRadius then
    let t := { s with
      ballPos := { s.ballPos with y := tableHeight + ballRadius }
      ballVelocity := { s.ballVelocity with y := -s.ballVelocity.y * groundDamping } }
    emitParticles t.ballPos ⟨0.2, 136 / 255, 1⟩ 20 0.1 rnd t
  else if tableHeight + playAreaHeight - ballRadius < s.ballPos.y then
    let t := { s with
      ballPos := { s.ballPos with y := tableHeight + playAreaHeight - ballRadius }
      ballVelocity := { s.ballVelocity with y := -s.ballVelocity.y * groundDamping } }
    emitParticles t.ballPos ⟨0.2, 136 / 255, 1⟩ 20 0.1 rnd t
  else s

/-- Side wall collision block of update (lines 720-735): when the ball
leaves the legal x band, invert velocity.x exactly and clamp x back to the
boundary with the sign of the current position, then emit a blue burst. -/
def wallCollision (rnd : ℕ → ℝ × ℝ × ℝ) (s : GameState) : GameState :=
  if tableWidth / 2 - ballRadius < |s.ballPos.x| then
    let t := { s with
      ballVelocity := { s.ballVelocity with x := s.ballVelocity.x * (-1) }
      ballPos := { s.ballPos with x := jsSign s.ballPos.x * (tableWidth / 2 - ballRadius) } }
    emitParticles t.ballPos ⟨0.2, 136 / 255, 1⟩ 20 0.1 rnd t
  else s

/-- updateAI (lines 1130-1173): difficulty-scaled exponential pursuit of the
linear 60-tick lookahead of the ball whenever the ball moves toward the AI
side, an occasional random jitter, then the unconditional clamps. -/
def updateAI (r : Rand) (dt : ℝ) (s : GameState) : GameState :=
  let difficulty : ℝ := min (0.4 + (s.gameLevel : ℝ) * 0.05) 0.9
  let aiSpeed := aiPaddleMovementSpeed * difficulty
  let predicted : Vec3 := ⟨s.ballPos.x + s.ballVelocity.x * (dt * 60),
                           s.ballPos.y + s.ballVelocity.y * (dt * 60),
                           s.ballPos.z + s.ballVelocity.z * (dt * 60)⟩
  let p := s.aiPaddle
  let p :=
    if s.ballVelocity.z < 0 then
      let q : Vec3 := ⟨p.x + (predicted.x - p.x) * aiSpeed,
                       p.y + (predicted.y - p.y) * aiSpeed,
                       p.z + ((-(tableDepth / 2) + 0.05) - p.z) * aiSpeed⟩
      if r.aiJitterU < 0.05 then
        ⟨q.x + (r.aiJx - 0.5) * 0.05, q.y + (r.aiJy - 0.5) * 0.05, q.z + (r.aiJz - 0.5) * 0.02⟩
      else q
    else p
  { s with aiPaddle :=
      ⟨max (-(tableWidth / 2 - paddleWidth / 2)) (min (tableWidth / 2 - paddleWidth / 2) p.x),
       max (tableHeight + paddleHeight / 2) (min (tableHeight + paddleVerticalRange) p.y),
       max (-(tableDepth / 2) - paddleDepthRange) (min (-(tableDepth / 2) + 0.05) p.z)⟩ }

/-- Cosmetic ball spin derived from velocity (lines 747-748). -/
def spinBall (s : GameState) : GameState :=
  { s with ballRotX := s.ballRotX + s.ballVelocity.z * 2
           ballRotZ := s.ballRotZ - s.ballVelocity.x * 2 }

/-- update(deltaTime) (lines 686-752), the per-frame tick: nothing happens
unless isPlaying; otherwise integrate, bounce off floor/ceiling, advance
the trail and live particles, bounce off side walls, resolve paddle
collisions, check scoring, move the AI, spin the ball, and age the score
indicators — in exactly this source order. -/
def update (r : Rand) (dt : ℝ) (s : GameState) : GameState :=
  if s.isPlaying then
    let s := integrateBall dt s
    let s := bounceCollisions r.bounceEmit s
    let s := updateTrail s
    let s := updateParticles dt s
    let s := wallCollision r.wallEmit s
    let s := checkPaddleCollisions r s
    let s := checkScoring r s
    let s := updateAI r dt s
    let s := spinBall s
    updateScoreIndicators dt s
  else s

/-- Comparison definition written from the words of the spec sentence
(section 2 of the spec): advance physics, check collisions, check scoring,
advance AI, and advance the effects (particles, trail, score indicators),
in that fixed order.  Spin keeps its relative place after the AI since the
sentence does not mention it. -/
def updateClaimedOrder (r : Rand) (dt : ℝ) (s : GameState) : GameState :=
  if s.isPlaying then
    let s := integrateBall dt s
    let s := bounceCollisions r.bounceEmit s
    let s := wallCollision r.wallEmit s
    let s := checkPaddleCollisions r s
    let s := checkScoring r s
    let s := updateAI r dt s
    let s := spinBall s
    let s := updateParticles dt s
    let s := updateTrail s
    updateScoreIndicators dt s
  else s

/-- The callback bookkeeping of ARScene (ar-scene source).  JS functions are
identified by object identity; they are modeled as numeric tokens, with
nextBindId the supply of fresh tokens:  each evaluation of
this.update.bind(this) allocates a brand new function object. -/
@[ext]
structure SceneState where
  onUpdateCallbacks : List ℕ
  nextBindId : ℕ

/-- Evaluation of this.update.bind(this): returns a fresh function token. -/
def bindUpdate (sc : SceneState) : ℕ × SceneState :=
  (sc.nextBindId, { sc with nextBindId := sc.nextBindId + 1 })

/-- ARScene.addUpdateCallback (lines 1731-1733): push onto the list. -/
def addUpdateCallback (f : ℕ) (sc : SceneState) : SceneState :=
  { sc with onUpdateCallbacks := sc.onUpdateCallbacks ++ [f] }

/-- ARScene.removeUpdateCallback (lines 1735-1740): indexOf by identity and
splice out the first occurrence; absence is a no-op. -/
def removeUpdateCallback (f : ℕ) (sc : SceneState) : SceneState :=
  { sc with onUpdateCallbacks := sc.onUpdateCallbacks.erase f }

/-- The callback registration performed by PongGame.initialize (line 101):
addUpdateCallback(this.update.bind(this)).  Returns the token actually
registered together with the new scene state. -/
def registerGameUpdate (sc : SceneState) : ℕ × SceneState :=
  let fb := bindUpdate sc
  (fb.1, addUpdateCallback fb.1 fb.2)

/-- The deregistration attempted by PongGame.dispose (line 1212):
removeUpdateCallback(this.update.bind(this)) — note that bind is evaluated
afresh, producing a different function object than the registered one. -/
def disposeGameUpdate (sc : SceneState) : SceneState :=
  let fb := bindUpdate sc
  removeUpdateCallback fb.1 fb.2

/- Frame lemmas: the effect helpers never touch the ball or the scores. -/

@[simp]
lemma emitParticles_ballPos (pos : Vec3) (color : Color) (count : ℕ) (speed : ℝ)
    (rnd : ℕ → ℝ × ℝ × ℝ) (s : GameState) :
    (emitParticles pos color count speed rnd s).ballPos = s.ballPos := by
  rcases h : findInactiveIdx s.particlePool with _ | i <;> simp [emitParticles, h]

@[simp]
lemma emitParticles_ballVelocity (pos : Vec3) (color : Color) (count : ℕ) (speed : ℝ)
    (rnd : ℕ → ℝ × ℝ × ℝ) (s : GameState) :
    (emitParticles pos color count speed rnd s).ballVelocity = s.ballVelocity := by
  rcases h : findInactiveIdx s.particlePool with _ | i <;> simp [emitParticles, h]

@[simp]
lemma emitParticles_playerScore (pos : Vec3) (color : Color) (count : ℕ) (speed : ℝ)
    (rnd : ℕ → ℝ × ℝ × ℝ) (s : GameState) :
    (emitParticles pos color count speed rnd s).playerScore = s.playerScore := by
  rcases h : findInactiveIdx s.particlePool with _ | i <;> simp [emitParticles, h]

@[simp]
lemma emitParticles_aiScore (pos : Vec3) (color : Color) (count : ℕ) (speed : ℝ)
    (rnd : ℕ → ℝ × ℝ × ℝ) (s : GameState) :
    (emitParticles pos color count speed rnd s).aiScore = s.aiScore := by
  rcases h : findInactiveIdx s.particlePool with _ | i <;> simp [emitParticles, h]

@[simp]
lemma emitParticles_ballSpeed (pos : Vec3) (color : Color) (count : ℕ) (speed : ℝ)
    (rnd : ℕ → ℝ × ℝ × ℝ) (s : GameState) :
    (emitParticles pos color count speed rnd s).ballSpeed = s.ballSpeed := by
  rcases h : findInactiveIdx s.particlePool with _ | i <;> simp [emitParticles, h]

@[simp]
lemma createScoreIndicator_ballPos (p : Vec3) (b : Bool) (s : GameState) :
    (createScoreIndicator p b s).ballPos = s.ballPos := rfl

@[simp]
lemma createScoreIndicator_playerScore (p : Vec3) (b : Bool) (s : GameState) :
    (createScoreIndicator p b s).playerScore = s.playerScore := rfl

@[simp]
lemma createScoreIndicator_aiScore (p : Vec3) (b : Bool) (s : GameState) :
    (createScoreIndicator p b s).aiScore = s.aiScore := rfl

@[simp]
lemma checkGameEnd_ballPos (s : GameState) : (checkGameEnd s).ballPos = s.ballPos := by
  unfold checkGameEnd; split_ifs <;> rfl

@[simp]
lemma checkGameEnd_playerScore (s : GameState) :
    (checkGameEnd s).playerScore = s.playerScore := by
  unfold checkGameEnd; split_ifs <;> rfl

@[simp]
lemma checkGameEnd_aiScore (s : GameState) : (checkGameEnd s).aiScore = s.aiScore := by
  unfold checkGameEnd; split_ifs <;> rfl

@[simp]
lemma launchBall_ballPos (u1 u2 : ℝ) (rnd : ℕ → ℝ × ℝ × ℝ) (s : GameState) :
    (launchBall u1 u2 rnd s).ballPos = s.ballPos := by
  simp [launchBall]

@[simp]
lemma launchBall_playerScore (u1 u2 : ℝ) (rnd : ℕ → ℝ × ℝ × ℝ) (s : GameState) :
    (launchBall u1 u2 rnd s).playerScore = s.playerScore := by
  simp [launchBall]

@[simp]
lemma launchBall_aiScore (u1 u2 : ℝ) (rnd : ℕ → ℝ × ℝ × ℝ) (s : GameState) :
    (launchBall u1 u2 rnd s).aiScore = s.aiScore := by
  simp [launchBall]

@[simp]
lemma launchBall_ballVelocity (u1 u2 : ℝ) (rnd : ℕ → ℝ × ℝ × ℝ) (s : GameState) :
    (launchBall u1 u2 rnd s).ballVelocity = launchVelocity u1 u2 s.ballSpeed := by
  simp [launchBall]

@[simp]
lemma resetBall_serve_ballPos (u1 u2 : ℝ) (rnd : ℕ → ℝ × ℝ × ℝ) (s : GameState) :
    (resetBall false u1 u2 rnd s).ballPos = ⟨0, tableHeight + ballRadius, 0⟩ := by
  simp [resetBall]

@[simp]
lemma resetBall_serve_playerScore (u1 u2 : ℝ) (rnd : ℕ → ℝ × ℝ × ℝ) (s : GameState) :
    (resetBall false u1 u2 rnd s).playerScore = s.playerScore := by
  simp [resetBall]

@[simp]
lemma resetBall_serve_aiScore (u1 u2 : ℝ) (rnd : ℕ → ℝ × ℝ × ℝ) (s : GameState) :
    (resetBall false u1 u2 rnd s).aiScore = s.aiScore := by
  simp [resetBall]

/- A concrete benign session state and randomness bundle, used by the
concrete instantiations below. -/

/-- All-zero draw stream. -/
def zeroTriple : ℕ → ℝ × ℝ × ℝ := fun _ => (0, 0, 0)

/-- A fixed randomness bundle (jitter draw 1, so the 5 percent AI jitter
branch is not taken). -/
def randZero : Rand where
  bounceEmit := zeroTriple
  wallEmit := zeroTriple
  paddleEmitP := zeroTriple
  paddleEmitA := zeroTriple
  scoreEmitP := zeroTriple
  scoreEmitA := zeroTriple
  launchU1P := 0
  launchU2P := 0
  launchU1A := 0
  launchU2A := 0
  launchEmitP := zeroTriple
  launchEmitA := zeroTriple
  aiJitterU := 1
  aiJx := 0
  aiJy := 0
  aiJz := 0

/-- A live session state shortly after initialize: ball centered on the
table surface, both paddles at their spawn points, pool fresh. -/
def baseState : GameState where
  isPlaying := true
  playerScore := 0
  aiScore := 0
  gameLevel := 1
  ballSpeed := 0.5
  ballPos := ⟨0, 0.03, 0⟩
  ballVelocity := ⟨0, 0, 0⟩
  lastPosition := ⟨0, 0.03, 0⟩
  ballRotX := 0
  ballRotZ := 0
  playerPaddle := ⟨0, 0.085, 0.55⟩
  aiPaddle := ⟨0, 0.085, -0.55⟩
  particlePool := List.replicate 10 dummyPS
  particles := []
  scoreIndicators := []
  trail := []
  trailUpdateCounter := 0
  pendingGameEnd := false
  pendingLaunch := false

/-- A system currently borrowed from the pool. -/
def activePS : ParticleSystem := { dummyPS with active := true }

/-- A session state whose whole pool is borrowed. -/
def fullPoolState : GameState := { baseState with particlePool := List.replicate 10 activePS }

/- C5: callback deregistration. -/

/-- A fully active pool has no inactive slot to hand out. -/
lemma findInactiveIdx_eq_none {l : List ParticleSystem}
    (h : ∀ ps ∈ l, ps.active = true) : findInactiveIdx l = none := by
  induction l with
  | nil => rfl
  | cons ps rest ih =>
    have hps := h ps (by simp)
    have hrest := ih fun q hq => h q (by simp [hq])
    simp [findInactiveIdx, hps, hrest]

/-- C5: dispose is meant to deregister the update callback registered by
initialize, but it calls removeUpdateCallback with a freshly evaluated
this.update.bind(this), a brand new function object.  Identity-based
removal therefore misses, and the originally registered callback is still
in the scene callback list after dispose — the code contradicts its own
intent (and the spec). -/
theorem dispose_keeps_registered_callback (sc : SceneState) :
    (registerGameUpdate sc).1 ∈ (disposeGameUpdate (registerGameUpdate sc).2).onUpdateCallbacks := by
  unfold registerGameUpdate disposeGameUpdate bindUpdate addUpdateCallback removeUpdateCallback
  simp only
  exact (List.mem_erase_of_ne (by omega)).mpr (by simp)

/- C8: particle pool exhaustion. -/

/-- C8: the pool is created with exactly ten systems, and an emitParticles
call made while every pooled system is active returns the state completely
unchanged — no error, no queueing, no pool growth. -/
theorem emitParticles_pool_exhausted
    (rndPool : ℕ → ℕ → ℝ × ℝ × ℝ × ℝ) (pos : Vec3) (color : Color) (count : ℕ)
    (speed : ℝ) (rnd : ℕ → ℝ × ℝ × ℝ) (s : GameState)
    (h : ∀ ps ∈ s.particlePool, ps.active = true) :
    (createParticlePool rndPool).length = 10 ∧
    emitParticles pos color count speed rnd s = s := by
  refine ⟨by simp [createParticlePool], ?_⟩
  unfold emitParticles
  rw [findInactiveIdx_eq_none h]

/-- Witness for C8 at a concrete all-borrowed pool. -/
theorem emitParticles_pool_exhausted_witness :
    (∀ ps ∈ fullPoolState.particlePool, ps.active = true) ∧
    emitParticles ⟨0, 0, 0⟩ ⟨1, 1, 1⟩ 30 0.1 zeroTriple fullPoolState = fullPoolState := by
  have h : ∀ ps ∈ fullPoolState.particlePool, ps.active = true := by
    intro ps hps
    have hmem : ps ∈ List.replicate 10 activePS := by
      simpa [fullPoolState] using hps
    rw [List.eq_of_mem_replicate hmem]
    rfl
  exact ⟨h, (emitParticles_pool_exhausted (fun _ _ => (0, 0, 0, 0)) ⟨0, 0, 0⟩ ⟨1, 1, 1⟩ 30 0.1
    zeroTriple fullPoolState h).2⟩

/- C9: serve floor on the z component. -/

/-- C9: every serve leaves the ball with a z velocity of magnitude at least
0.3, hence at least 0.3 of the session ballSpeed — ballSpeed never exceeds
0.8 in a session (it starts at 0.5 and is recomputed as a minimum with
0.8), so the hypothesis ballSpeed at most 1 always holds. -/
theorem launch_z_floor (u1 u2 : ℝ) (rnd : ℕ → ℝ × ℝ × ℝ) (s : GameState)
    (hbs : s.ballSpeed ≤ 1) :
    0.3 * s.ballSpeed ≤ |(launchBall u1 u2 rnd s).ballVelocity.z| := by
  rw [launchBall_ballVelocity]
  simp only [launchVelocity]
  set vz := Real.sin (launchAngleH u1) * Real.cos (launchAngleV u2) * s.ballSpeed with hvz
  by_cases h : |vz| < 0.3
  · rw [if_pos h]
    by_cases h2 : 0 < vz
    · rw [if_pos h2]
      show 0.3 * s.ballSpeed ≤ |(0.3 : ℝ)|
      rw [show |(0.3 : ℝ)| = 0.3 by norm_num]
      linarith
    · rw [if_neg h2]
      show 0.3 * s.ballSpeed ≤ |(-0.3 : ℝ)|
      rw [show |(-0.3 : ℝ)| = 0.3 by norm_num]
      linarith
  · rw [if_neg h]
    push_neg at h
    show 0.3 * s.ballSpeed ≤ |vz|
    linarith

/-- Witness for C9: the serve with both raw draws at their midpoint angles
(horizontal angle 0, vertical angle 0) draws a raw z component of 0, which
the floor overwrites with -0.3. -/
theorem launch_z_floor_witness :
    baseState.ballSpeed ≤ 1 ∧
    0.3 * baseState.ballSpeed ≤ |(launchBall 0 (1 / 2) zeroTriple baseState).ballVelocity.z| := by
  have hbs : baseState.ballSpeed ≤ 1 := by norm_num [baseState]
  exact ⟨hbs, launch_z_floor 0 (1 / 2) zeroTriple baseState hbs⟩

/- C10: the serve speed can exceed ballSpeed. -/

/-- C10: whenever the raw z draw is smaller than 0.3 in magnitude, the
overwrite makes the launch velocity strictly faster than ballSpeed (the
launch never renormalizes), and the stored z component is exactly 0.3 or
-0.3. -/
theorem launch_overspeed (u1 u2 : ℝ) (rnd : ℕ → ℝ × ℝ × ℝ) (s : GameState)
    (hbs : 0 ≤ s.ballSpeed)
    (hsmall : |Real.sin (launchAngleH u1) * Real.cos (launchAngleV u2) * s.ballSpeed| < 0.3) :
    s.ballSpeed < speedOf (launchBall u1 u2 rnd s).ballVelocity ∧
    ((launchBall u1 u2 rnd s).ballVelocity.z = 0.3 ∨
     (launchBall u1 u2 rnd s).ballVelocity.z = -0.3) := by
  rw [launchBall_ballVelocity]
  simp only [launchVelocity]
  set H := launchAngleH u1 with hH
  set V := launchAngleV u2 with hV
  set bs := s.ballSpeed with hbsdef
  set vx := Real.cos H * Real.cos V * bs with hvx
  set vy := Real.sin V * bs with hvy
  set vz := Real.sin H * Real.cos V * bs with hvzdef
  have key : vx ^ 2 + vy ^ 2 + vz ^ 2 = bs ^ 2 := by
    have h1 := Real.sin_sq_add_cos_sq H
    have h2 := Real.sin_sq_add_cos_sq V
    rw [hvx, hvy, hvzdef]
    linear_combination (bs ^ 2 * Real.cos V ^ 2) * h1 + bs ^ 2 * h2
  have hvzsq : vz ^ 2 < 0.09 := by
    have h3 := abs_lt.mp hsmall
    nlinarith [h3.1, h3.2]
  rw [if_pos hsmall]
  constructor
  · by_cases h2 : 0 < vz
    · rw [if_pos h2]
      show bs < speedOf ⟨vx, vy, 0.3⟩
      unfold speedOf
      apply (Real.lt_sqrt hbs).mpr
      show bs ^ 2 < vx ^ 2 + vy ^ 2 + (0.3 : ℝ) ^ 2
      nlinarith [key, hvzsq]
    · rw [if_neg h2]
      show bs < speedOf ⟨vx, vy, -0.3⟩
      unfold speedOf
      apply (Real.lt_sqrt hbs).mpr
      show bs ^ 2 < vx ^ 2 + vy ^ 2 + (-0.3 : ℝ) ^ 2
      nlinarith [key, hvzsq]
  · by_cases h2 : 0 < vz
    · exact Or.inl (by rw [if_pos h2])
    · exact Or.inr (by rw [if_neg h2])

/-- Witness for C10: with horizontal draw 0 and vertical draw 1/2 the raw z
component is 0, so the launch from the base state (ballSpeed 0.5) leaves
strictly faster than 0.5. -/
theorem launch_overspeed_witness :
    (0 : ℝ) ≤ baseState.ballSpeed ∧
    |Real.sin (launchAngleH 0) * Real.cos (launchAngleV (1 / 2)) * baseState.ballSpeed| < 0.3 ∧
    baseState.ballSpeed < speedOf (launchBall 0 (1 / 2) zeroTriple baseState).ballVelocity := by
  have hbs : (0 : ℝ) ≤ baseState.ballSpeed := by norm_num [baseState]
  have hsmall :
      |Real.sin (launchAngleH 0) * Real.cos (launchAngleV (1 / 2)) * baseState.ballSpeed| < 0.3 := by
    rw [show launchAngleH 0 = 0 by simp [launchAngleH]]
    simp [Real.sin_zero]
    norm_num
  exact ⟨hbs, hsmall, (launch_overspeed 0 (1 / 2) zeroTriple baseState hbs hsmall).1⟩

/- C1: paddle collision response. -/

/-- Scaling a vector scales its magnitude by the absolute factor. -/
lemma speedOf_smul (c : ℝ) (v : Vec3) : speedOf (smul c v) = |c| * speedOf v := by
  unfold speedOf smul
  rw [show (c * v.x) ^ 2 + (c * v.y) ^ 2 + (c * v.z) ^ 2
        = c ^ 2 * (v.x ^ 2 + v.y ^ 2 + v.z ^ 2) by ring,
      Real.sqrt_mul (sq_nonneg c), Real.sqrt_sq_eq_abs]

/-- A vector with a nonzero z component has positive magnitude. -/
lemma speedOf_pos_of_zne {v : Vec3} (h : v.z ≠ 0) : 0 < speedOf v := by
  unfold speedOf
  apply Real.sqrt_pos.mpr
  rcases h.lt_or_lt with h' | h' <;> nlinarith [sq_nonneg v.x, sq_nonneg v.y]

/-- Rescaling by target over current magnitude gives a vector of exactly
the target magnitude, for a positive target and a nonzero vector. -/
lemma speedOf_renorm {bs : ℝ} (hbs : 0 < bs) {w : Vec3} (hw : w.z ≠ 0) :
    speedOf (smul (bs / speedOf w) w) = bs := by
  have hS := speedOf_pos_of_zne hw
  rw [speedOf_smul, abs_of_pos (div_pos hbs hS), div_mul_cancel₀]
  exact ne_of_gt hS

/-- C1: for either paddle, when the ball moves toward the paddle, its
leading edge crossed the paddle collision plane since the previous tick,
and its center lies inside the paddle rectangle, the response leaves the
velocity a positive multiple of the vector obtained by flipping and
amplifying the z component by 1.05 and deflecting x and y by the
normalized hit offsets times 0.5 — renormalized so its magnitude is
exactly the session ballSpeed — and snaps the ball z coordinate flush
against the paddle face offset by paddleDepth/2 plus the ball radius. -/
theorem paddle_collision_response (rP rA : ℕ → ℝ × ℝ × ℝ) (s : GameState)
    (hbs : 0 < s.ballSpeed) :
    ((0 < s.ballVelocity.z ∧
      s.playerPaddle.z - paddleDepth / 2 < s.ballPos.z + ballRadius ∧
      s.lastPosition.z + ballRadius ≤ s.playerPaddle.z - paddleDepth / 2) →
     (s.playerPaddle.x - paddleWidth / 2 ≤ s.ballPos.x ∧
      s.ballPos.x ≤ s.playerPaddle.x + paddleWidth / 2 ∧
      s.playerPaddle.y - paddleHeight / 2 ≤ s.ballPos.y ∧
      s.ballPos.y ≤ s.playerPaddle.y + paddleHeight / 2) →
     speedOf (playerPaddleCollision rP s).ballVelocity = s.ballSpeed ∧
     (playerPaddleCollision rP s).ballPos.z
        = s.playerPaddle.z - paddleDepth / 2 - ballRadius ∧
     ∃ c : ℝ, 0 < c ∧ (playerPaddleCollision rP s).ballVelocity =
       smul c ⟨s.ballVelocity.x + (s.ballPos.x - s.playerPaddle.x) / (paddleWidth / 2) * 0.5,
               s.ballVelocity.y + (s.ballPos.y - s.playerPaddle.y) / (paddleHeight / 2) * 0.5,
               s.ballVelocity.z * (-1.05)⟩) ∧
    ((s.ballVelocity.z < 0 ∧
      s.ballPos.z - ballRadius < s.aiPaddle.z + paddleDepth / 2 ∧
      s.aiPaddle.z + paddleDepth / 2 ≤ s.lastPosition.z - ballRadius) →
     (s.aiPaddle.x - paddleWidth / 2 ≤ s.ballPos.x ∧
      s.ballPos.x ≤ s.aiPaddle.x + paddleWidth / 2 ∧
      s.aiPaddle.y - paddleHeight / 2 ≤ s.ballPos.y ∧
      s.ballPos.y ≤ s.aiPaddle.y + paddleHeight / 2) →
     speedOf (aiPaddleCollision rA s).ballVelocity = s.ballSpeed ∧
     (aiPaddleCollision rA s).ballPos.z
        = s.aiPaddle.z + paddleDepth / 2 + ballRadius ∧
     ∃ c : ℝ, 0 < c ∧ (aiPaddleCollision rA s).ballVelocity =
       smul c ⟨s.ballVelocity.x + (s.ballPos.x - s.aiPaddle.x) / (paddleWidth / 2) * 0.5,
               s.ballVelocity.y + (s.ballPos.y - s.aiPaddle.y) / (paddleHeight / 2) * 0.5,
               s.ballVelocity.z * (-1.05)⟩) := by
  constructor
  · intro h1 h2
    set w : Vec3 :=
      ⟨s.ballVelocity.x + (s.ballPos.x - s.playerPaddle.x) / (paddleWidth / 2) * 0.5,
       s.ballVelocity.y + (s.ballPos.y - s.playerPaddle.y) / (paddleHeight / 2) * 0.5,
       s.ballVelocity.z * (-1.05)⟩ with hwdef
    have hwz : w.z ≠ 0 := by
      rw [hwdef]
      show s.ballVelocity.z * (-1.05) ≠ 0
      have := h1.1
      intro hcontra
      nlinarith
    have hvel : (playerPaddleCollision rP s).ballVelocity
        = smul (s.ballSpeed / speedOf w) w := by
      simp only [playerPaddleCollision]
      rw [if_pos h1, if_pos h2]
      rw [emitParticles_ballVelocity]
    have hpos : (playerPaddleCollision rP s).ballPos.z
        = s.playerPaddle.z - paddleDepth / 2 - ballRadius := by
      simp only [playerPaddleCollision]
      rw [if_pos h1, if_pos h2]
      rw [emitParticles_ballPos]
    refine ⟨?_, hpos, s.ballSpeed / speedOf w, div_pos hbs (speedOf_pos_of_zne hwz), hvel⟩
    rw [hvel, speedOf_renorm hbs hwz]
  · intro h1 h2
    set w : Vec3 :=
      ⟨s.ballVelocity.x + (s.ballPos.x - s.aiPaddle.x) / (paddleWidth / 2) * 0.5,
       s.ballVelocity.y + (s.ballPos.y - s.aiPaddle.y) / (paddleHeight / 2) * 0.5,
       s.ballVelocity.z * (-1.05)⟩ with hwdef
    have hwz : w.z ≠ 0 := by
      rw [hwdef]
      show s.ballVelocity.z * (-1.05) ≠ 0
      have := h1.1
      intro hcontra
      nlinarith
    have hvel : (aiPaddleCollision rA s).ballVelocity
        = smul (s.ballSpeed / speedOf w) w := by
      simp only [aiPaddleCollision]
      rw [if_pos h1, if_pos h2]
      rw [emitParticles_ballVelocity]
    have hpos : (aiPaddleCollision rA s).ballPos.z
        = s.aiPaddle.z + paddleDepth / 2 + ballRadius := by
      simp only [aiPaddleCollision]
      rw [if_pos h1, if_pos h2]
      rw [emitParticles_ballPos]
    refine ⟨?_, hpos, s.ballSpeed / speedOf w, div_pos hbs (speedOf_pos_of_zne hwz), hvel⟩
    rw [hvel, speedOf_renorm hbs hwz]

/-- The spec scenario state: ball dead center in front of the player
paddle, flying straight at it at the session speed. -/
def paddleHitState : GameState :=
  { baseState with
    ballPos := ⟨0, 0.085, 0.53⟩
    ballVelocity := ⟨0, 0, 0.5⟩
    lastPosition := ⟨0, 0.085, 0.5⟩ }

/-- Witness for C1, at the spec scenario: all crossing and rectangle
conditions hold numerically and the player-side conclusions follow. -/
theorem paddle_collision_response_witness :
    (0 < paddleHitState.ballSpeed ∧
     (0 < paddleHitState.ballVelocity.z ∧
      paddleHitState.playerPaddle.z - paddleDepth / 2
        < paddleHitState.ballPos.z + ballRadius ∧
      paddleHitState.lastPosition.z + ballRadius
        ≤ paddleHitState.playerPaddle.z - paddleDepth / 2) ∧
     (paddleHitState.playerPaddle.x - paddleWidth / 2 ≤ paddleHitState.ballPos.x ∧
      paddleHitState.ballPos.x ≤ paddleHitState.playerPaddle.x + paddleWidth / 2 ∧
      paddleHitState.playerPaddle.y - paddleHeight / 2 ≤ paddleHitState.ballPos.y ∧
      paddleHitState.ballPos.y ≤ paddleHitState.playerPaddle.y + paddleHeight / 2)) ∧
    speedOf (playerPaddleCollision zeroTriple paddleHitState).ballVelocity
      = paddleHitState.ballSpeed ∧
    (playerPaddleCollision zeroTriple paddleHitState).ballPos.z
      = paddleHitState.playerPaddle.z - paddleDepth / 2 - ballRadius := by
  have hbs : 0 < paddleHitState.ballSpeed := by
    norm_num [paddleHitState, baseState]
  have h1 : 0 < paddleHitState.ballVelocity.z ∧
      paddleHitState.playerPaddle.z - paddleDepth / 2
        < paddleHitState.ballPos.z + ballRadius ∧
      paddleHitState.lastPosition.z + ballRadius
        ≤ paddleHitState.playerPaddle.z - paddleDepth / 2 := by
    norm_num [paddleHitState, baseState, paddleDepth, ballRadius]
  have h2 : paddleHitState.playerPaddle.x - paddleWidth / 2 ≤ paddleHitState.ballPos.x ∧
      paddleHitState.ballPos.x ≤ paddleHitState.playerPaddle.x + paddleWidth / 2 ∧
      paddleHitState.playerPaddle.y - paddleHeight / 2 ≤ paddleHitState.ballPos.y ∧
      paddleHitState.ballPos.y ≤ paddleHitState.playerPaddle.y + paddleHeight / 2 := by
    norm_num [paddleHitState, baseState, paddleWidth, paddleHeight]
  have h := (paddle_collision_response zeroTriple zeroTriple paddleHitState hbs).1 h1 h2
  exact ⟨⟨hbs, h1, h2⟩, h.1, h.2.1⟩

/- C3: scoring events. -/

@[simp]
lemma aiScoresBranch_ballPos (r : Rand) (s : GameState) :
    (aiScoresBranch r s).ballPos = ⟨0, tableHeight + ballRadius, 0⟩ := by
  simp [aiScoresBranch]

@[simp]
lemma aiScoresBranch_aiScore (r : Rand) (s : GameState) :
    (aiScoresBranch r s).aiScore = s.aiScore + 1 := by
  simp [aiScoresBranch]

@[simp]
lemma aiScoresBranch_playerScore (r : Rand) (s : GameState) :
    (aiScoresBranch r s).playerScore = s.playerScore := by
  simp [aiScoresBranch]

@[simp]
lemma playerScoresBranch_ballPos (r : Rand) (s : GameState) :
    (playerScoresBranch r s).ballPos = ⟨0, tableHeight + ballRadius, 0⟩ := by
  simp [playerScoresBranch]

@[simp]
lemma playerScoresBranch_playerScore (r : Rand) (s : GameState) :
    (playerScoresBranch r s).playerScore = s.playerScore + 1 := by
  simp [playerScoresBranch]

@[simp]
lemma playerScoresBranch_aiScore (r : Rand) (s : GameState) :
    (playerScoresBranch r s).aiScore = s.aiScore := by
  simp [playerScoresBranch]

/-- C3: a scoring event — the ball z position beyond tableDepth/2 plus the
ball radius on either side — bumps exactly the conceding side counter by
one, leaves the other counter unchanged, and recenters the ball at
(0, tableHeight + ballRadius, 0).  The second boundary test runs on the
state left by the first, whose recentering makes it impossible for both
to fire in one call. -/
theorem scoring_event (r : Rand) (s : GameState) :
    (tableDepth / 2 + ballRadius < s.ballPos.z →
      (checkScoring r s).aiScore = s.aiScore + 1 ∧
      (checkScoring r s).playerScore = s.playerScore ∧
      (checkScoring r s).ballPos = ⟨0, tableHeight + ballRadius, 0⟩) ∧
    (s.ballPos.z < -(tableDepth / 2) - ballRadius →
      (checkScoring r s).playerScore = s.playerScore + 1 ∧
      (checkScoring r s).aiScore = s.aiScore ∧
      (checkScoring r s).ballPos = ⟨0, tableHeight + ballRadius, 0⟩) := by
  constructor
  · intro hz
    have hneg : ¬ (aiScoresBranch r s).ballPos.z < -(tableDepth / 2) - ballRadius := by
      rw [aiScoresBranch_ballPos]
      show ¬ (0 : ℝ) < -(tableDepth / 2) - ballRadius
      norm_num [tableDepth, ballRadius]
    simp only [checkScoring]
    rw [if_pos hz, if_neg hneg]
    simp
  · intro hz
    have hpos : ¬ tableDepth / 2 + ballRadius < s.ballPos.z := by
      norm_num [tableDepth, ballRadius] at hz ⊢
      linarith
    simp only [checkScoring]
    rw [if_neg hpos, if_pos hz]
    simp

/-- Witness for C3: ball just past the player end at z = 0.7. -/
theorem scoring_event_witness :
    tableDepth / 2 + ballRadius
      < ({ baseState with ballPos := ⟨0, 0.03, 0.7⟩ } : GameState).ballPos.z ∧
    (checkScoring randZero { baseState with ballPos := ⟨0, 0.03, 0.7⟩ }).aiScore
      = ({ baseState with ballPos := ⟨0, 0.03, 0.7⟩ } : GameState).aiScore + 1 ∧
    (checkScoring randZero { baseState with ballPos := ⟨0, 0.03, 0.7⟩ }).playerScore
      = ({ baseState with ballPos := ⟨0, 0.03, 0.7⟩ } : GameState).playerScore ∧
    (checkScoring randZero { baseState with ballPos := ⟨0, 0.03, 0.7⟩ }).ballPos
      = ⟨0, tableHeight + ballRadius, 0⟩ := by
  have hz : tableDepth / 2 + ballRadius
      < ({ baseState with ballPos := ⟨0, 0.03, 0.7⟩ } : GameState).ballPos.z := by
    norm_num [tableDepth, ballRadius]
  exact ⟨hz, (scoring_event randZero { baseState with ballPos := ⟨0, 0.03, 0.7⟩ }).1 hz⟩

/- C4: round end, score reset and level progression. -/

/-- C4: once either score has reached winningScore, the synchronous part of
checkGameEnd raises the pending round-end transition (the 3 second
setTimeout), and the body of that deferred transition zeroes both scores,
bumps gameLevel by exactly one, and recomputes ballSpeed as
min(0.5 + gameLevel * 0.05, 0.8) at the incremented gameLevel. -/
theorem round_end_level_up (s : GameState) :
    ((winningScore ≤ s.playerScore ∨ winningScore ≤ s.aiScore) →
      (checkGameEnd s).pendingGameEnd = true) ∧
    ((gameEndTimeout s).playerScore = 0 ∧
     (gameEndTimeout s).aiScore = 0 ∧
     (gameEndTimeout s).gameLevel = s.gameLevel + 1 ∧
     (gameEndTimeout s).ballSpeed = min (0.5 + ((s.gameLevel : ℝ) + 1) * 0.05) 0.8) := by
  constructor
  · intro h
    unfold checkGameEnd
    rw [if_pos h]
  · refine ⟨?_, ?_, ?_, ?_⟩ <;> simp [gameEndTimeout, resetBall]

/-- Witness for C4 at a finished round of the base session. -/
theorem round_end_level_up_witness :
    (winningScore ≤ ({ baseState with playerScore := 5 } : GameState).playerScore ∨
     winningScore ≤ ({ baseState with playerScore := 5 } : GameState).aiScore) ∧
    (checkGameEnd { baseState with playerScore := 5 }).pendingGameEnd = true ∧
    (gameEndTimeout { baseState with playerScore := 5 }).gameLevel
      = ({ baseState with playerScore := 5 } : GameState).gameLevel + 1 := by
  have h : winningScore ≤ ({ baseState with playerScore := 5 } : GameState).playerScore ∨
      winningScore ≤ ({ baseState with playerScore := 5 } : GameState).aiScore := by
    left
    show winningScore ≤ 5
    norm_num [winningScore]
  exact ⟨h, (round_end_level_up { baseState with playerScore := 5 }).1 h,
    (round_end_level_up { baseState with playerScore := 5 }).2.2.2.1⟩

/- C7: the AI paddle clamp volume. -/

/-- The two-sided clamp Math.max(lo, Math.min(hi, v)) lands in [lo, hi]. -/
lemma clamp_mem {lo hi : ℝ} (v : ℝ) (h : lo ≤ hi) :
    lo ≤ max lo (min hi v) ∧ max lo (min hi v) ≤ hi :=
  ⟨le_max_left _ _, max_le h (min_le_left _ _)⟩

/-- A resting state whose AI paddle sits far beyond the AI end of the
table, inside its own clamp band but outside any band inside the table. -/
def aiFarState : GameState := { baseState with aiPaddle := ⟨0, 0.085, -1⟩ }

/-- Counterexample to C7 as stated: with the ball not approaching (z
velocity 0), updateAI only clamps, and it leaves the AI paddle at
z = -1, strictly beyond the table end at -tableDepth/2 = -0.6.  The
mirror of the player band [tableDepth/2 - paddleDepthRange, tableDepth/2]
is [-0.6, -0.12], so the clamp volume is not the mirrored player volume:
the AI z band is [-tableDepth/2 - paddleDepthRange, -tableDepth/2 + 0.05]
= [-1.08, -0.55], larger by 0.05 and reaching outside the table. -/
theorem updateAI_clamp_counterexample :
    (updateAI randZero (1 / 10) aiFarState).aiPaddle.z = -1 ∧
    (updateAI randZero (1 / 10) aiFarState).aiPaddle.z < -(tableDepth / 2) := by
  have hz : aiFarState.ballVelocity.z = 0 := rfl
  have hcond : ¬ aiFarState.ballVelocity.z < 0 := by rw [hz]; norm_num
  constructor
  · simp only [updateAI]
    rw [if_neg hcond]
    show max (-(tableDepth / 2) - paddleDepthRange)
      (min (-(tableDepth / 2) + 0.05) aiFarState.aiPaddle.z) = -1
    have hp : aiFarState.aiPaddle.z = -1 := rfl
    rw [hp]
    norm_num [tableDepth, paddleDepthRange, min_def, max_def]
  · simp only [updateAI]
    rw [if_neg hcond]
    show max (-(tableDepth / 2) - paddleDepthRange)
      (min (-(tableDepth / 2) + 0.05) aiFarState.aiPaddle.z) < -(tableDepth / 2)
    have hp : aiFarState.aiPaddle.z = -1 := rfl
    rw [hp]
    norm_num [tableDepth, paddleDepthRange, min_def, max_def]

/-- C7 amended: after every updateAI call the AI paddle is clamped to
x in [-(tableWidth/2 - paddleWidth/2), tableWidth/2 - paddleWidth/2] and
y in [tableHeight + paddleHeight/2, tableHeight + paddleVerticalRange]
exactly as the player paddle is, but its z is clamped to the band
[-tableDepth/2 - paddleDepthRange, -tableDepth/2 + 0.05], which has extent
paddleDepthRange + 0.05 and reaches outside the table beyond the AI end —
not the mirror of the player band. -/
theorem updateAI_clamped (r : Rand) (dt : ℝ) (s : GameState) :
    (-(tableWidth / 2 - paddleWidth / 2) ≤ (updateAI r dt s).aiPaddle.x ∧
     (updateAI r dt s).aiPaddle.x ≤ tableWidth / 2 - paddleWidth / 2) ∧
    (tableHeight + paddleHeight / 2 ≤ (updateAI r dt s).aiPaddle.y ∧
     (updateAI r dt s).aiPaddle.y ≤ tableHeight + paddleVerticalRange) ∧
    (-(tableDepth / 2) - paddleDepthRange ≤ (updateAI r dt s).aiPaddle.z ∧
     (updateAI r dt s).aiPaddle.z ≤ -(tableDepth / 2) + 0.05) := by
  simp only [updateAI]
  refine ⟨clamp_mem _ ?_, clamp_mem _ ?_, clamp_mem _ ?_⟩
  · norm_num [tableWidth, paddleWidth]
  · norm_num [tableHeight, paddleHeight, paddleVerticalRange, playAreaHeight]
  · norm_num [tableDepth, paddleDepthRange]

/- C2: containment of the ball in x and y. -/

/-- The legal x band of the ball: the table width minus the ball radius. -/
def inBoundsX (x : ℝ) : Prop :=
  -(tableWidth / 2) + ballRadius ≤ x ∧ x ≤ tableWidth / 2 - ballRadius

/-- The legal y band of the ball: the vertical play area minus the radius. -/
def inBoundsY (y : ℝ) : Prop :=
  tableHeight + ballRadius ≤ y ∧ y ≤ tableHeight + playAreaHeight - ballRadius

/-- Whatever height the integration produced, the floor/ceiling block
leaves y inside the legal band: each violated bound is clamped to, and an
unviolated pair of tests means y was already inside. -/
lemma bounce_inBoundsY (rnd : ℕ → ℝ × ℝ × ℝ) (s : GameState) :
    inBoundsY (bounceCollisions rnd s).ballPos.y := by
  unfold bounceCollisions
  split_ifs with h1 h2
  · rw [emitParticles_ballPos]
    show inBoundsY (tableHeight + ballRadius)
    unfold inBoundsY
    norm_num [tableHeight, ballRadius, playAreaHeight]
  · rw [emitParticles_ballPos]
    show inBoundsY (tableHeight + playAreaHeight - ballRadius)
    unfold inBoundsY
    norm_num [tableHeight, ballRadius, playAreaHeight]
  · exact ⟨not_lt.mp h1, not_lt.mp h2⟩

/-- Whatever x the integration produced, the side wall block leaves x
inside the legal band: an out-of-band x is clamped back to the signed
boundary, an in-band x is untouched. -/
lemma wall_inBoundsX (rnd : ℕ → ℝ × ℝ × ℝ) (s : GameState) :
    inBoundsX (wallCollision rnd s).ballPos.x := by
  unfold wallCollision
  split_ifs with h
  · rw [emitParticles_ballPos]
    show inBoundsX (jsSign s.ballPos.x * (tableWidth / 2 - ballRadius))
    unfold jsSign inBoundsX
    split_ifs with hp hn
    · norm_num [tableWidth, ballRadius]
    · norm_num [tableWidth, ballRadius]
    · exfalso
      have hx0 : s.ballPos.x = 0 := le_antisymm (not_lt.mp hp) (not_lt.mp hn)
      rw [hx0] at h
      norm_num [tableWidth, ballRadius] at h
  · have h2 := abs_le.mp (not_lt.mp h)
    exact ⟨by linarith [h2.1], h2.2⟩

@[simp]
lemma wallCollision_ballPos_y (rnd : ℕ → ℝ × ℝ × ℝ) (s : GameState) :
    (wallCollision rnd s).ballPos.y = s.ballPos.y := by
  unfold wallCollision
  split_ifs with h
  · rw [emitParticles_ballPos]
  · rfl

@[simp]
lemma updateTrail_ballPos (s : GameState) : (updateTrail s).ballPos = s.ballPos := by
  simp only [updateTrail]
  split_ifs <;> rfl

@[simp]
lemma updateParticles_ballPos (dt : ℝ) (s : GameState) :
    (updateParticles dt s).ballPos = s.ballPos := rfl

@[simp]
lemma updateAI_ballPos (r : Rand) (dt : ℝ) (s : GameState) :
    (updateAI r dt s).ballPos = s.ballPos := rfl

@[simp]
lemma spinBall_ballPos (s : GameState) : (spinBall s).ballPos = s.ballPos := rfl

@[simp]
lemma updateScoreIndicators_ballPos (dt : ℝ) (s : GameState) :
    (updateScoreIndicators dt s).ballPos = s.ballPos := rfl

@[simp]
lemma playerPaddleCollision_ballPos_x (rnd : ℕ → ℝ × ℝ × ℝ) (s : GameState) :
    (playerPaddleCollision rnd s).ballPos.x = s.ballPos.x := by
  unfold playerPaddleCollision
  split_ifs <;> first | rw [emitParticles_ballPos] | rfl

@[simp]
lemma playerPaddleCollision_ballPos_y (rnd : ℕ → ℝ × ℝ × ℝ) (s : GameState) :
    (playerPaddleCollision rnd s).ballPos.y = s.ballPos.y := by
  unfold playerPaddleCollision
  split_ifs <;> first | rw [emitParticles_ballPos] | rfl

@[simp]
lemma aiPaddleCollision_ballPos_x (rnd : ℕ → ℝ × ℝ × ℝ) (s : GameState) :
    (aiPaddleCollision rnd s).ballPos.x = s.ballPos.x := by
  unfold aiPaddleCollision
  split_ifs <;> first | rw [emitParticles_ballPos] | rfl

@[simp]
lemma aiPaddleCollision_ballPos_y (rnd : ℕ → ℝ × ℝ × ℝ) (s : GameState) :
    (aiPaddleCollision rnd s).ballPos.y = s.ballPos.y := by
  unfold aiPaddleCollision
  split_ifs <;> first | rw [emitParticles_ballPos] | rfl

/-- checkScoring preserves the containment bands: a branch that fires
recenters the ball (the center is inside both bands), a branch that does
not leaves the position alone. -/
lemma checkScoring_inBounds (r : Rand) (s : GameState)
    (hx : inBoundsX s.ballPos.x) (hy : inBoundsY s.ballPos.y) :
    inBoundsX (checkScoring r s).ballPos.x ∧ inBoundsY (checkScoring r s).ballPos.y := by
  have hcenter : inBoundsX (0 : ℝ) ∧ inBoundsY (tableHeight + ballRadius) := by
    unfold inBoundsX inBoundsY
    norm_num [tableWidth, tableHeight, ballRadius, playAreaHeight]
  simp only [checkScoring]
  split_ifs with h1 h2 h3
  · rw [playerScoresBranch_ballPos]
    exact hcenter
  · rw [aiScoresBranch_ballPos]
    exact hcenter
  · rw [playerScoresBranch_ballPos]
    exact hcenter
  · exact ⟨hx, hy⟩

/-- C2: at the end of any update tick of a live session, the ball x lies
in [-tableWidth/2 + ballRadius, tableWidth/2 - ballRadius] and its y in
[tableHeight + ballRadius, tableHeight + playAreaHeight - ballRadius].
The floor/ceiling and side wall clamps establish the bands outright each
tick, and every later phase preserves them, so the bounds hypotheses on
the starting position are not even needed. -/
theorem ball_containment (r : Rand) (dt : ℝ) (s : GameState)
    (_hdt : 0 ≤ dt) (hplay : s.isPlaying = true)
    (_hx : inBoundsX s.ballPos.x) (_hy : inBoundsY s.ballPos.y) :
    inBoundsX (update r dt s).ballPos.x ∧ inBoundsY (update r dt s).ballPos.y := by
  unfold update
  rw [hplay]
  simp only [if_true]
  set s1 := integrateBall dt s with hs1
  set s2 := bounceCollisions r.bounceEmit s1 with hs2
  set s3 := updateTrail s2 with hs3
  set s4 := updateParticles dt s3 with hs4
  set s5 := wallCollision r.wallEmit s4 with hs5
  set s6 := checkPaddleCollisions r s5 with hs6
  set s7 := checkScoring r s6 with hs7
  have hy2 : inBoundsY s2.ballPos.y := bounce_inBoundsY _ _
  have hy5 : inBoundsY s5.ballPos.y := by
    rw [hs5, wallCollision_ballPos_y, hs4, updateParticles_ballPos, hs3, updateTrail_ballPos]
    exact hy2
  have hx5 : inBoundsX s5.ballPos.x := wall_inBoundsX _ _
  have hx6 : inBoundsX s6.ballPos.x := by
    rw [hs6]
    unfold checkPaddleCollisions
    rw [aiPaddleCollision_ballPos_x, playerPaddleCollision_ballPos_x]
    exact hx5
  have hy6 : inBoundsY s6.ballPos.y := by
    rw [hs6]
    unfold checkPaddleCollisions
    rw [aiPaddleCollision_ballPos_y, playerPaddleCollision_ballPos_y]
    exact hy5
  have h7 := checkScoring_inBounds r s6 hx6 hy6
  rw [updateScoreIndicators_ballPos, spinBall_ballPos, updateAI_ballPos]
  exact h7

/-- Witness for C2 at the base session state with a zero-length tick. -/
theorem ball_containment_witness :
    (0 : ℝ) ≤ 0 ∧ baseState.isPlaying = true ∧
    inBoundsX baseState.ballPos.x ∧ inBoundsY baseState.ballPos.y ∧
    inBoundsX (update randZero 0 baseState).ballPos.x ∧
    inBoundsY (update randZero 0 baseState).ballPos.y := by
  have hx : inBoundsX baseState.ballPos.x := by
    unfold inBoundsX
    norm_num [baseState, tableWidth, ballRadius]
  have hy : inBoundsY baseState.ballPos.y := by
    unfold inBoundsY
    norm_num [baseState, tableHeight, ballRadius, playAreaHeight]
  have h := ball_containment randZero 0 baseState le_rfl rfl hx hy
  exact ⟨le_rfl, rfl, hx, hy, h.1, h.2⟩

/- C6: the order of the phases inside update. -/

/-- A player paddle block fires only for a ball moving toward positive z. -/
lemma playerPaddleCollision_noop (rnd : ℕ → ℝ × ℝ × ℝ) {s : GameState}
    (h : ¬ 0 < s.ballVelocity.z) : playerPaddleCollision rnd s = s := by
  unfold playerPaddleCollision
  rw [if_neg fun hc => h hc.1]

/-- An AI paddle block fires only for a ball moving toward negative z. -/
lemma aiPaddleCollision_noop (rnd : ℕ → ℝ × ℝ × ℝ) {s : GameState}
    (h : ¬ s.ballVelocity.z < 0) : aiPaddleCollision rnd s = s := by
  unfold aiPaddleCollision
  rw [if_neg fun hc => h hc.1]

/-- Scoring does nothing while the ball is between the two goal planes. -/
lemma checkScoring_noop (r : Rand) {s : GameState}
    (h1 : ¬ tableDepth / 2 + ballRadius < s.ballPos.z)
    (h2 : ¬ s.ballPos.z < -(tableDepth / 2) - ballRadius) :
    checkScoring r s = s := by
  simp only [checkScoring]
  rw [if_neg h1, if_neg h2]

/-- An emission into a completely fresh pool lands in slot 0; a fresh slot
has empty per-particle buffers, so only the header fields change. -/
lemma emitParticles_fresh (pos : Vec3) (color : Color) (count : ℕ) (speed : ℝ)
    (rnd : ℕ → ℝ × ℝ × ℝ) (s : GameState)
    (h : s.particlePool = List.replicate 10 dummyPS) :
    emitParticles pos color count speed rnd s
      = { s with
          particlePool := (List.replicate 10 dummyPS).set 0
            { dummyPS with position := pos, visible := true, active := true },
          particles := s.particles ++ [0] } := by
  simp [emitParticles, findInactiveIdx, h,
    show dummyPS.active = false from rfl,
    show dummyPS.colors = [] from rfl, show dummyPS.positions = [] from rfl,
    show dummyPS.velocities = [] from rfl, show dummyPS.lifetime = 0 from rfl]

@[simp]
lemma updateTrail_particlePool (s : GameState) :
    (updateTrail s).particlePool = s.particlePool := by
  simp only [updateTrail]
  split_ifs <;> rfl

@[simp]
lemma updateTrail_particles (s : GameState) :
    (updateTrail s).particles = s.particles := by
  simp only [updateTrail]
  split_ifs <;> rfl

@[simp]
lemma updateAI_particlePool (r : Rand) (dt : ℝ) (s : GameState) :
    (updateAI r dt s).particlePool = s.particlePool := rfl

@[simp]
lemma updateAI_particles (r : Rand) (dt : ℝ) (s : GameState) :
    (updateAI r dt s).particles = s.particles := rfl

@[simp]
lemma spinBall_particlePool (s : GameState) :
    (spinBall s).particlePool = s.particlePool := rfl

@[simp]
lemma spinBall_particles (s : GameState) : (spinBall s).particles = s.particles := rfl

@[simp]
lemma updateScoreIndicators_particlePool (dt : ℝ) (s : GameState) :
    (updateScoreIndicators dt s).particlePool = s.particlePool := rfl

/-- updateParticles reads only the active list and the pool. -/
lemma updateParticles_particlePool (dt : ℝ) (s : GameState) :
    (updateParticles dt s).particlePool
      = (updateParticlesAux dt s.particles s.particlePool).2 := rfl

/-- updateParticles with no live system is the identity. -/
lemma updateParticles_nil (dt : ℝ) {s : GameState} (h : s.particles = []) :
    updateParticles dt s = s := by
  unfold updateParticles
  rw [h]
  ext <;> simp [updateParticlesAux, h]

/-- The tick state of the counterexample: live session, ball just inside
the right wall moving outward, everything else at its spawn value. -/
def wallHitState : GameState :=
  { baseState with ballPos := ⟨0.39, 0.3, 0⟩, ballVelocity := ⟨0.1, 0, 0⟩ }

/-- wallHitState after the integration phase of a 0.1 s tick. -/
def wallHitMoved : GameState :=
  { wallHitState with
    lastPosition := ⟨0.39, 0.3, 0⟩,
    ballVelocity := ⟨0.1, -0.03, 0⟩,
    ballPos := ⟨0.4, 0.297, 0⟩ }

/-- wallHitMoved after the trail phase bumped the frame counter. -/
def wallHitTrailed : GameState := { wallHitMoved with trailUpdateCounter := 1 }

/-- The pool slot borrowed by the wall burst of that tick. -/
def wallBurstPS : ParticleSystem :=
  { dummyPS with position := ⟨0.38, 0.297, 0⟩, visible := true, active := true }

lemma wallHit_integrate : integrateBall (1 / 10) wallHitState = wallHitMoved := by
  simp only [integrateBall]
  ext <;> norm_num [wallHitState, wallHitMoved, baseState, gravity]

lemma wallHit_bounce (rnd : ℕ → ℝ × ℝ × ℝ) :
    bounceCollisions rnd wallHitMoved = wallHitMoved := by
  unfold bounceCollisions
  rw [show wallHitMoved.ballPos.y = 0.297 from rfl]
  rw [if_neg (show ¬ ((0.297 : ℝ) < tableHeight + ballRadius) by
        norm_num [tableHeight, ballRadius]),
      if_neg (show ¬ (tableHeight + playAreaHeight - ballRadius < (0.297 : ℝ)) by
        norm_num [tableHeight, ballRadius, playAreaHeight])]

lemma wallHit_trail : updateTrail wallHitMoved = wallHitTrailed := by
  have hc : wallHitMoved.trailUpdateCounter = 0 := rfl
  simp only [updateTrail, hc]
  rw [if_pos (show (0 + 1) % 2 ≠ 0 by decide)]
  ext <;> norm_num [wallHitMoved, wallHitTrailed, wallHitState, baseState]

/-- The wall collision phase of the counterexample tick, evaluated on any
state carrying the post-integration ball and a fresh pool: velocity.x
flips, x clamps to 0.38, and a wall burst is emitted into slot 0. -/
lemma wallCollision_eval (rnd : ℕ → ℝ × ℝ × ℝ) (s : GameState)
    (hx : s.ballPos = ⟨0.4, 0.297, 0⟩) (hv : s.ballVelocity = ⟨0.1, -0.03, 0⟩)
    (hp : s.particlePool = List.replicate 10 dummyPS) (hq : s.particles = []) :
    wallCollision rnd s
      = { s with
          ballVelocity := ⟨-0.1, -0.03, 0⟩,
          ballPos := ⟨0.38, 0.297, 0⟩,
          particlePool := (List.replicate 10 dummyPS).set 0 wallBurstPS,
          particles := [0] } := by
  simp only [wallCollision]
  rw [hx, hv]
  rw [show (Vec3.mk (0.4 : ℝ) 0.297 0).x = 0.4 from rfl]
  rw [if_pos (show tableWidth / 2 - ballRadius < |(0.4 : ℝ)| by
        rw [show |(0.4 : ℝ)| = 0.4 from abs_of_pos (by norm_num)]
        norm_num [tableWidth, ballRadius])]
  simp only [emitParticles_fresh, hp]
  ext <;> norm_num [hq, wallBurstPS, dummyPS, jsSign, tableWidth, ballRadius]

/-- Aging the single live wall burst by 0.1 s only advances its lifetime
(the fresh buffers are empty), and it stays live. -/
lemma wallBurst_age :
    updateParticlesAux (1 / 10) [0] ((List.replicate 10 dummyPS).set 0 wallBurstPS)
      = ([0], ((List.replicate 10 dummyPS).set 0 wallBurstPS).set 0
          { wallBurstPS with lifetime := 1 / 10 }) := by
  have hget : ((List.replicate 10 dummyPS).set 0 wallBurstPS).getD 0 dummyPS
      = wallBurstPS := rfl
  simp only [updateParticlesAux, hget]
  rw [show wallBurstPS.maxLifetime = 1 from rfl, show wallBurstPS.lifetime = 0 from rfl]
  rw [if_neg (show ¬ ((1 : ℝ) ≤ 0 + 1 / 10) by norm_num)]
  simp [advanceParticleArrays,
    show wallBurstPS.positions = [] from rfl, show wallBurstPS.velocities = [] from rfl,
    show wallBurstPS.colors = [] from rfl]

/-- The real update order: the wall burst emitted in this tick is not aged
in the same tick, because updateParticles ran before the wall collision. -/
lemma wallHit_actual_pool :
    (update randZero (1 / 10) wallHitState).particlePool
      = (List.replicate 10 dummyPS).set 0 wallBurstPS := by
  have hplay : wallHitState.isPlaying = true := rfl
  unfold update
  rw [hplay]
  simp only [if_true]
  rw [wallHit_integrate, wallHit_bounce, wallHit_trail,
      updateParticles_nil (1 / 10) (show wallHitTrailed.particles = [] from rfl),
      wallCollision_eval _ wallHitTrailed rfl rfl rfl rfl]
  simp only [checkPaddleCollisions]
  rw [playerPaddleCollision_noop _ (show ¬ (0 : ℝ) < 0 by norm_num),
      aiPaddleCollision_noop _ (show ¬ (0 : ℝ) < 0 by norm_num),
      checkScoring_noop _
        (show ¬ (tableDepth / 2 + ballRadius < (0 : ℝ)) by norm_num [tableDepth, ballRadius])
        (show ¬ ((0 : ℝ) < -(tableDepth / 2) - ballRadius) by norm_num [tableDepth, ballRadius])]
  rw [updateScoreIndicators_particlePool, spinBall_particlePool, updateAI_particlePool]

/-- The order claimed by the spec sentence: effects run after scoring and
AI, so the wall burst emitted in this tick is aged by dt = 0.1 s within
the same tick. -/
lemma wallHit_claimed_pool :
    (updateClaimedOrder randZero (1 / 10) wallHitState).particlePool
      = ((List.replicate 10 dummyPS).set 0 wallBurstPS).set 0
          { wallBurstPS with lifetime := 1 / 10 } := by
  have hplay : wallHitState.isPlaying = true := rfl
  unfold updateClaimedOrder
  rw [hplay]
  simp only [if_true]
  rw [wallHit_integrate, wallHit_bounce,
      wallCollision_eval _ wallHitMoved rfl rfl rfl rfl]
  simp only [checkPaddleCollisions]
  rw [playerPaddleCollision_noop _ (show ¬ (0 : ℝ) < 0 by norm_num),
      aiPaddleCollision_noop _ (show ¬ (0 : ℝ) < 0 by norm_num),
      checkScoring_noop _
        (show ¬ (tableDepth / 2 + ballRadius < (0 : ℝ)) by norm_num [tableDepth, ballRadius])
        (show ¬ ((0 : ℝ) < -(tableDepth / 2) - ballRadius) by norm_num [tableDepth, ballRadius])]
  rw [updateScoreIndicators_particlePool, updateTrail_particlePool,
      updateParticles_particlePool]
  show (updateParticlesAux (1 / 10) [0] ((List.replicate 10 dummyPS).set 0 wallBurstPS)).2
      = ((List.replicate 10 dummyPS).set 0 wallBurstPS).set 0
          { wallBurstPS with lifetime := 1 / 10 }
  rw [wallBurst_age]

/-- Counterexample to C6 as stated: running the phases in the order the
spec sentence gives (physics, collisions, scoring, AI, then effects)
produces a different state than update does on a concrete wall-bounce
tick — in the real order the trail/particle effects advance before the
wall and paddle collisions and the scoring check, so a burst emitted by
this tick still has lifetime 0 at the end of the tick, while the claimed
order would have aged it to 0.1. -/
theorem update_order_counterexample :
    update randZero (1 / 10) wallHitState
      ≠ updateClaimedOrder randZero (1 / 10) wallHitState := by
  intro hcontra
  have h := congrArg (fun t : GameState => t.particlePool.headI.lifetime) hcontra
  simp only at h
  rw [wallHit_actual_pool, wallHit_claimed_pool] at h
  have h0 : ((List.replicate 10 dummyPS).set 0 wallBurstPS).headI.lifetime = 0 := rfl
  have h1 : (((List.replicate 10 dummyPS).set 0 wallBurstPS).set 0
      { wallBurstPS with lifetime := 1 / 10 }).headI.lifetime = 1 / 10 := rfl
  rw [h0, h1] at h
  norm_num at h

/-- C6 amended: one update tick advances, in this fixed order: physics
integration, floor/ceiling collisions, the trail effect, the live particle
effects, wall collisions, paddle collisions, scoring, the AI, the ball
spin, and finally the score indicator effects.  The trail and particle
effects thus run between the floor/ceiling and wall collision checks, not
after the AI as the spec sentence orders them. -/
theorem update_phase_order (r : Rand) (dt : ℝ) (s : GameState) :
    update r dt s =
      if s.isPlaying then
        updateScoreIndicators dt (spinBall (updateAI r dt (checkScoring r
          (checkPaddleCollisions r (wallCollision r.wallEmit (updateParticles dt
            (updateTrail (bounceCollisions r.bounceEmit (integrateBall dt s)))))))))
      else s := rfl

end Pong

end
